import Mathlib

/-!
Formal model of the tasks-service REST API (Flask + SQLAlchemy).

The relational store is modelled as insertion-ordered lists of rows; each
SQLAlchemy query chain (filter_by / order_by / offset / limit / first / count)
becomes the corresponding pure list operation.  UUIDs are modelled as natural
numbers, dates and timestamps as integers (days / seconds), and the ORM session
is made explicit: every mutating service function takes the database value and
returns the updated one.

Source files modelled:
  app/models/{user,category,tag,task,base}.py   (rows, enums, is_overdue)
  app/services/{auth,tag,task,category,user}.py (service functions)
  app/schemas/{task,user,tag}.py                (validation)
  app/api/v1/{user,task}.py                     (register and search endpoints,
                                                 pages computation)
-/

namespace TasksService

/-! ### Generic sorting (model of SQLAlchemy order_by)

The query layer returns rows in a deterministic order; order_by is modelled as
a stable insertion sort with a boolean comparison. -/

def insertLe {α : Type} (le : α → α → Bool) (a : α) : List α → List α
  | [] => [a]
  | b :: l => if le a b then a :: b :: l else b :: insertLe le a l

def sortByLe {α : Type} (le : α → α → Bool) : List α → List α
  | [] => []
  | a :: l => insertLe le a (sortByLe le l)

theorem insertLe_perm {α : Type} (le : α → α → Bool) (a : α) (l : List α) :
    (insertLe le a l).Perm (a :: l) := by
  induction l with
  | nil => exact List.Perm.refl _
  | cons b t ih =>
    by_cases h : le a b = true
    · simp [insertLe, h]
    · simp only [insertLe, h]
      exact ((ih.cons b).trans (List.Perm.swap a b t))

theorem sortByLe_perm {α : Type} (le : α → α → Bool) (l : List α) :
    (sortByLe le l).Perm l := by
  induction l with
  | nil => exact List.Perm.refl _
  | cons a t ih => exact (insertLe_perm le a (sortByLe le t)).trans (ih.cons a)

theorem mem_sortByLe {α : Type} (le : α → α → Bool) (l : List α) (a : α) :
    a ∈ sortByLe le l ↔ a ∈ l :=
  (sortByLe_perm le l).mem_iff

/-! ### Enumerations (app/schemas/task.py, app/schemas/user.py)

Postgres native enums compare in declaration order, which the constructors
mirror. -/

inductive StatusEnum
  | todo
  | inProgress
  | ready
  deriving DecidableEq, Repr

inductive PriorityEnum
  | low
  | medium
  | high
  deriving DecidableEq, Repr

inductive RoleEnum
  | admin
  | user
  deriving DecidableEq, Repr

def StatusEnum.ord : StatusEnum → Nat
  | .todo => 0
  | .inProgress => 1
  | .ready => 2

def PriorityEnum.ord : PriorityEnum → Nat
  | .low => 0
  | .medium => 1
  | .high => 2

/-! ### Rows (app/models) -/

structure User where
  id : Nat
  username : String
  email : String
  password_hash : String
  role : RoleEnum
  last_login : Option Int
  created_at : Int
  updated_at : Int
  deriving DecidableEq, Repr

structure Category where
  id : Nat
  name : String
  description : Option String
  user_id : Nat
  created_at : Int
  updated_at : Int
  deriving DecidableEq, Repr

structure Tag where
  id : Nat
  name : String
  user_id : Nat
  created_at : Int
  updated_at : Int
  deriving DecidableEq, Repr

structure Task where
  id : Nat
  title : String
  description : Option String
  status : StatusEnum
  priority : PriorityEnum
  due_date : Option Int
  user_id : Nat
  category_id : Option Nat
  created_at : Int
  updated_at : Int
  deriving DecidableEq, Repr

structure TaskTag where
  task_id : Nat
  tag_id : Nat
  deriving DecidableEq, Repr

structure DB where
  users : List User
  categories : List Category
  tags : List Tag
  tasks : List Task
  task_tags : List TaskTag
  deriving DecidableEq, Repr

def emptyDB : DB := { users := [], categories := [], tags := [], tasks := [], task_tags := [] }

/-- Task.is_overdue (app/models/task.py): date-only check, status is ignored. -/
def Task.is_overdue (t : Task) (today : Int) : Bool :=
  match t.due_date with
  | none => false
  | some d => d < today

def get_task_by_id (db : DB) (task_id user_id : Nat) : Option Task :=
  (db.tasks.filter (fun t => t.id == task_id && t.user_id == user_id)).head?

def get_tag_by_id (db : DB) (tag_id user_id : Nat) : Option Tag :=
  (db.tags.filter (fun t => t.id == tag_id && t.user_id == user_id)).head?

def get_tag_by_name (db : DB) (name : String) (user_id : Nat) : Option Tag :=
  (db.tags.filter (fun t => t.name == name && t.user_id == user_id)).head?

def get_category_by_id (db : DB) (category_id user_id : Nat) : Option Category :=
  (db.categories.filter (fun c => c.id == category_id && c.user_id == user_id)).head?

def get_user_by_username (db : DB) (username : String) : Option User :=
  (db.users.filter (fun u => u.username == username)).head?

def get_user_by_email (db : DB) (email : String) : Option User :=
  (db.users.filter (fun u => u.email == email)).head?

/-! ### Create operations (app/services)

uuid4 generation is modelled by passing the generated id explicitly; clock
reads become an explicit now argument feeding created_at / updated_at. -/

def create_tag (db : DB) (tag_id user_id : Nat) (name : String) (now : Int) : DB :=
  let tag : Tag :=
    { id := tag_id, name := name, user_id := user_id, created_at := now, updated_at := now }
  { db with tags := db.tags ++ [tag] }

def create_category (db : DB) (category_id user_id : Nat) (name : String)
    (description : Option String) (now : Int) : DB :=
  let c : Category :=
    { id := category_id, name := name, description := description, user_id := user_id,
      created_at := now, updated_at := now }
  { db with categories := db.categories ++ [c] }

/-- True when the list inserts the same row twice: the model of a primary-key
collision among rows flushed in one transaction. -/
def has_dup {α : Type} [DecidableEq α] : List α → Bool
  | [] => false
  | a :: l => l.contains a || has_dup l

/-- create_task (app/services/task.py): builds the row, then for each supplied
tag id resolves the tag scoped to the creating user and, only when found, adds
a task_tag association row; unknown or foreign-owned tag ids are skipped.  The
single commit raises IntegrityError when an inserted row collides on a primary
key — the task id with an existing task, an association with an existing
task_tag row, or two identical associations from duplicate supplied tag ids
(task_tag's composite key (task_id, tag_id), app/models/task.py) — in which
case everything is rolled back and the service aborts 500 with nothing
persisted. -/
def create_task (db : DB) (task_id user_id : Nat) (title : String)
    (description : Option String) (status : StatusEnum) (priority : PriorityEnum)
    (due_date : Option Int) (category_id : Option Nat) (tag_ids : List Nat)
    (now : Int) : Except Nat DB :=
  let task : Task :=
    { id := task_id, title := title, description := description, status := status,
      priority := priority, due_date := due_date, user_id := user_id,
      category_id := category_id, created_at := now, updated_at := now }
  let assocs := tag_ids.filterMap (fun g =>
    (get_tag_by_id db g user_id).map (fun tag => TaskTag.mk task_id tag.id))
  if db.tasks.any (fun t => t.id == task_id) ||
      assocs.any (fun a => db.task_tags.contains a) || has_dup assocs then
    Except.error 500
  else
    Except.ok { db with tasks := db.tasks ++ [task], task_tags := db.task_tags ++ assocs }

/-! ### Partial update (setattr merge over non-null values)

The update payloads mirror TagUpdate / TaskUpdate (app/schemas): a field absent
from the request and a field explicitly null both arrive as none, and in both
cases the setattr loop leaves the attribute untouched.  The updated_at column
has an onupdate hook (app/models/base.py) that refreshes it whenever the
commit writes the row, i.e. whenever at least one attribute was assigned. -/

structure TagUpdate where
  name : Option String
  deriving DecidableEq, Repr

structure TaskUpdate where
  title : Option String
  description : Option String
  status : Option StatusEnum
  priority : Option PriorityEnum
  due_date : Option Int
  category_id : Option Nat
  tag_ids : Option (List Nat)
  deriving DecidableEq, Repr

def apply_tag_update (t : Tag) (d : TagUpdate) (now : Int) : Tag :=
  let t1 := { t with name := d.name.getD t.name }
  if d.name.isSome then { t1 with updated_at := now } else t1

def update_tag (db : DB) (t : Tag) (d : TagUpdate) (now : Int) : DB :=
  { db with tags := db.tags.map (fun x => if x.id == t.id then apply_tag_update x d now else x) }

/-- True when the setattr loop of update_task assigned at least one column
(tag_ids is popped from the map before the loop, so it does not dirty the
task row itself). -/
def task_update_dirty (d : TaskUpdate) : Bool :=
  d.title.isSome || d.description.isSome || d.status.isSome || d.priority.isSome ||
    d.due_date.isSome || d.category_id.isSome

def apply_task_update (t : Task) (d : TaskUpdate) (now : Int) : Task :=
  let t1 : Task :=
    { t with
      title := d.title.getD t.title
      description := match d.description with | some v => some v | none => t.description
      status := d.status.getD t.status
      priority := d.priority.getD t.priority
      due_date := match d.due_date with | some v => some v | none => t.due_date
      category_id := match d.category_id with | some v => some v | none => t.category_id }
  if task_update_dirty d then { t1 with updated_at := now } else t1

/-- update_task (app/services/task.py): setattr merge on the row; when tag_ids
is present (even as an empty list) all existing associations of the task are
deleted and replaced by the resolvable ones among the supplied ids.  The
single flush inserts before it deletes, so re-inserting an association row
that still exists (a tag kept across the update) or inserting the same
association twice (duplicate supplied ids) collides on the task_tag composite
primary key: IntegrityError, rollback, abort 500, nothing persisted. -/
def update_task (db : DB) (t : Task) (d : TaskUpdate) (now : Int) : Except Nat DB :=
  let tasks2 := db.tasks.map (fun x => if x.id == t.id then apply_task_update x d now else x)
  match d.tag_ids with
  | none => Except.ok { db with tasks := tasks2 }
  | some l =>
    let added := l.filterMap (fun g =>
      (get_tag_by_id db g t.user_id).map (fun tag => TaskTag.mk t.id tag.id))
    if added.any (fun a => db.task_tags.contains a) || has_dup added then
      Except.error 500
    else
      let kept := db.task_tags.filter (fun a => !(a.task_id == t.id))
      Except.ok { db with tasks := tasks2, task_tags := kept ++ added }

/-! ### Text comparison helpers

SQL text ordering and ILIKE are modelled on the character lists of the
strings; Char.toLower models lower-casing for the case-insensitive substring
match of the title filter. -/

def charListLt : List Char → List Char → Bool
  | [], [] => false
  | [], _ :: _ => true
  | _ :: _, [] => false
  | a :: as, b :: bs => decide (a.toNat < b.toNat) || (a == b && charListLt as bs)

def strLe (s t : String) : Bool := s == t || charListLt s.toList t.toList

def startsWithChars : List Char → List Char → Bool
  | [], _ => true
  | _ :: _, [] => false
  | a :: as, b :: bs => a == b && startsWithChars as bs

def containsChars (needle : List Char) : List Char → Bool
  | [] => needle.isEmpty
  | c :: rest => startsWithChars needle (c :: rest) || containsChars needle rest

/-- Model of Task.title.ilike(f"%{title}%"): case-insensitive substring. -/
def ilike_contains (pat s : String) : Bool :=
  containsChars (pat.toList.map Char.toLower) (s.toList.map Char.toLower)

/-! ### order_by / offset / limit -/

def optIntLe : Option Int → Option Int → Bool
  | none, _ => true
  | some _, none => false
  | some a, some b => decide (a ≤ b)

def optNatLe : Option Nat → Option Nat → Bool
  | none, _ => true
  | some _, none => false
  | some a, some b => a ≤ b

def optStrLe : Option String → Option String → Bool
  | none, _ => true
  | some _, none => false
  | some a, some b => strLe a b

/-- Model of the hasattr(Model, sort_by) guard: the mapped columns of Task.
Relationship and method attributes would make hasattr true as well but cannot
be compiled into an order_by and are outside every verified claim. -/
def task_has_attr (s : String) : Bool :=
  ["id", "title", "description", "status", "priority", "due_date", "user_id",
    "category_id", "created_at", "updated_at"].contains s

def task_field_le (f : String) (a b : Task) : Bool :=
  if f == "title" then strLe a.title b.title
  else if f == "description" then optStrLe a.description b.description
  else if f == "status" then a.status.ord ≤ b.status.ord
  else if f == "priority" then a.priority.ord ≤ b.priority.ord
  else if f == "due_date" then optIntLe a.due_date b.due_date
  else if f == "user_id" then a.user_id ≤ b.user_id
  else if f == "category_id" then optNatLe a.category_id b.category_id
  else if f == "updated_at" then decide (a.updated_at ≤ b.updated_at)
  else if f == "id" then a.id ≤ b.id
  else decide (a.created_at ≤ b.created_at)

def tag_has_attr (s : String) : Bool :=
  ["id", "name", "user_id", "created_at", "updated_at"].contains s

def tag_field_le (f : String) (a b : Tag) : Bool :=
  if f == "id" then a.id ≤ b.id
  else if f == "user_id" then a.user_id ≤ b.user_id
  else if f == "created_at" then decide (a.created_at ≤ b.created_at)
  else if f == "updated_at" then decide (a.updated_at ≤ b.updated_at)
  else strLe a.name b.name

def category_has_attr (s : String) : Bool :=
  ["id", "name", "description", "user_id", "created_at", "updated_at"].contains s

def category_field_le (f : String) (a b : Category) : Bool :=
  if f == "id" then a.id ≤ b.id
  else if f == "description" then optStrLe a.description b.description
  else if f == "user_id" then a.user_id ≤ b.user_id
  else if f == "created_at" then decide (a.created_at ≤ b.created_at)
  else if f == "updated_at" then decide (a.updated_at ≤ b.updated_at)
  else strLe a.name b.name

/-- Sorting step shared by list_tags / list_categories / search_tasks: sort by
the requested attribute when the model has it, silently skip the sort
otherwise; desc flips the comparison. -/
def apply_sort {α : Type} (has_attr : String → Bool) (le : String → α → α → Bool)
    (sort_by sort_order : String) (l : List α) : List α :=
  if has_attr sort_by then
    if sort_order == "desc" then sortByLe (fun a b => le sort_by b a) l
    else sortByLe (le sort_by) l
  else l

/-- offset((page - 1) * per_page).limit(per_page). -/
def paginate {α : Type} (page per_page : Nat) (l : List α) : List α :=
  (l.drop ((page - 1) * per_page)).take per_page

/-- Handler-level page count: (total + per_page - 1) // per_page. -/
def pages_for (total per_page : Nat) : Nat := (total + per_page - 1) / per_page

/-! ### List operations -/

def list_tasks (db : DB) (user_id page per_page : Nat) : List Task × Nat :=
  let query := sortByLe (fun a b => decide (b.created_at ≤ a.created_at))
    (db.tasks.filter (fun t => t.user_id == user_id))
  (paginate page per_page query, query.length)

def list_tags (db : DB) (user_id : Nat) (sort_by sort_order : String)
    (page per_page : Nat) : List Tag × Nat :=
  let query := apply_sort tag_has_attr tag_field_le sort_by sort_order
    (db.tags.filter (fun t => t.user_id == user_id))
  (paginate page per_page query, query.length)

def list_categories (db : DB) (user_id : Nat) (sort_by sort_order : String)
    (page per_page : Nat) : List Category × Nat :=
  let query := apply_sort category_has_attr category_field_le sort_by sort_order
    (db.categories.filter (fun c => c.user_id == user_id))
  (paginate page per_page query, query.length)

/-! ### Task search (app/services/task.py search_tasks and the /tasks/search
endpoint with its TaskSearchParams validation, app/schemas/task.py) -/

structure SearchQuery where
  title : Option String
  status : Option StatusEnum
  priority : Option PriorityEnum
  category_id : Option Nat
  tag_ids : Option (List Nat)
  is_overdue : Option Bool
  due_date_from : Option Int
  due_date_to : Option Int
  sort_by : String
  sort_order : String
  page : Nat
  per_page : Nat
  deriving DecidableEq, Repr

/-- Model of Task.task_tags.any(TaskTag.tag_id.in_(tag_ids)): the task has at
least one association whose tag id is among the requested ones.  The SQL join
that precedes this EXISTS filter can duplicate a matching row once per
association; row multiplicity is outside every verified claim. -/
def task_has_any_tag (db : DB) (t : Task) (gids : List Nat) : Bool :=
  db.task_tags.any (fun a => a.task_id == t.id && gids.contains a.tag_id)

/-- Title step of search_tasks: Python truthiness makes an empty title string
apply no filter; otherwise the case-insensitive substring match. -/
def filter_title (o : Option String) (l : List Task) : List Task :=
  match o with
  | some s => if s == "" then l else l.filter (fun t => ilike_contains s t.title)
  | none => l

def filter_status (o : Option StatusEnum) (l : List Task) : List Task :=
  match o with
  | some st => l.filter (fun t => t.status == st)
  | none => l

def filter_priority (o : Option PriorityEnum) (l : List Task) : List Task :=
  match o with
  | some p => l.filter (fun t => t.priority == p)
  | none => l

/-- SQL three-valued logic: Task.category_id == c is false on a NULL column. -/
def filter_category (o : Option Nat) (l : List Task) : List Task :=
  match o with
  | some c => l.filter (fun t => t.category_id == some c)
  | none => l

/-- Tag step: an empty id list is falsy and applies no filter. -/
def filter_tags (db : DB) (o : Option (List Nat)) (l : List Task) : List Task :=
  match o with
  | some gids =>
    if gids.isEmpty then l else l.filter (fun t => task_has_any_tag db t gids)
  | none => l

/-- is_overdue step: compared against None explicitly, so False does filter;
note this query-level condition ignores the task status. -/
def filter_overdue (o : Option Bool) (today : Int) (l : List Task) : List Task :=
  match o with
  | some true => l.filter (fun t => match t.due_date with
      | some d => decide (d < today)
      | none => false)
  | some false => l.filter (fun t => match t.due_date with
      | some d => decide (today ≤ d)
      | none => true)
  | none => l

def filter_due_from (o : Option Int) (l : List Task) : List Task :=
  match o with
  | some lo => l.filter (fun t => match t.due_date with
      | some d => decide (lo ≤ d)
      | none => false)
  | none => l

def filter_due_to (o : Option Int) (l : List Task) : List Task :=
  match o with
  | some hi => l.filter (fun t => match t.due_date with
      | some d => decide (d ≤ hi)
      | none => false)
  | none => l

/-- search_tasks: ownership filter, then the optional filters in source order,
then sort and paginate; count() is taken on the filtered query. -/
def search_tasks (db : DB) (user_id : Nat) (q : SearchQuery) (today : Int) :
    List Task × Nat :=
  let r0 := db.tasks.filter (fun t => t.user_id == user_id)
  let r8 := filter_due_to q.due_date_to (filter_due_from q.due_date_from
    (filter_overdue q.is_overdue today (filter_tags db q.tag_ids
      (filter_category q.category_id (filter_priority q.priority
        (filter_status q.status (filter_title q.title r0)))))))
  let sorted := apply_sort task_has_attr task_field_le q.sort_by q.sort_order r8
  (paginate q.page q.per_page sorted, sorted.length)

/-- TaskSearchParams allow-list for sort_by (app/schemas/task.py). -/
def valid_sort_fields : List String :=
  ["created_at", "updated_at", "due_date", "priority", "status", "title"]

/-- TaskSearchParams.validate_sort_by. -/
def validate_sort_by (v : String) : Except String String :=
  if valid_sort_fields.contains v then Except.ok v
  else Except.error "sort_by must be one of: created_at, updated_at, due_date, priority, status, title"

/-- TaskSearchParams.validate_sort_order. -/
def validate_sort_order (v : String) : Except String String :=
  if v == "asc" || v == "desc" then Except.ok v
  else Except.error "sort_order must be either asc or desc"

/-- TaskSearchParams.validate_due_date_range. -/
def validate_due_date_range (lo hi : Option Int) : Except String Unit :=
  match lo, hi with
  | some l, some h => if h < l then Except.error "due_date_to must be after due_date_from" else Except.ok ()
  | _, _ => Except.ok ()

/-- Pydantic validation of TaskSearchParams: the request fails with a
ValidationError as soon as any field validator rejects. -/
def validate_task_search_params (q : SearchQuery) : Except String SearchQuery := do
  _ ← validate_due_date_range q.due_date_from q.due_date_to
  _ ← validate_sort_by q.sort_by
  _ ← validate_sort_order q.sort_order
  pure q

/-- GET /tasks/search handler (app/api/v1/task.py search_user_tasks): invalid
parameters surface as a 400 response with no result payload; valid ones run
the search and return 200 with the rows and count. -/
def search_user_tasks (db : DB) (user_id : Nat) (q : SearchQuery) (today : Int) :
    Nat × Option (List Task × Nat) :=
  match validate_task_search_params q with
  | Except.error _ => (400, none)
  | Except.ok p => (200, some (search_tasks db user_id p today))

/-! ### Statistics (app/services/task.py, app/services/category.py)

Python round(x, 2) rounds half to even; the model rounds half away from zero.
The two differ only on exact half values, which no verified claim exercises,
and not at all in the zero-task branch. -/

def round2 (q : ℚ) : ℚ := (round (q * 100) : ℤ) / 100

/-- Overdue condition of the aggregate queries: due date set, strictly past,
and status not Ready — unlike Task.is_overdue, which ignores status. -/
def overdue_filter (t : Task) (today : Int) : Bool :=
  (match t.due_date with
    | some d => decide (d < today)
    | none => false) && !(t.status == StatusEnum.ready)

structure TaskStats where
  total_tasks : Nat
  completed_tasks : Nat
  overdue_tasks : Nat
  due_today : Nat
  completion_rate : ℚ
  deriving DecidableEq, Repr

def get_task_stats (db : DB) (user_id : Nat) (today : Int) : TaskStats :=
  let total := (db.tasks.filter (fun t => t.user_id == user_id)).length
  let completed := (db.tasks.filter (fun t =>
    t.user_id == user_id && t.status == StatusEnum.ready)).length
  let overdue := (db.tasks.filter (fun t =>
    t.user_id == user_id && overdue_filter t today)).length
  let dueToday := (db.tasks.filter (fun t =>
    t.user_id == user_id && t.due_date == some today)).length
  { total_tasks := total, completed_tasks := completed, overdue_tasks := overdue,
    due_today := dueToday,
    completion_rate :=
      if 0 < total then round2 ((completed : ℚ) / (total : ℚ) * 100) else 100 }

structure CategoryStat where
  category : Category
  task_count : Nat
  completed_count : Nat
  overdue_count : Nat
  completion_rate : ℚ
  deriving DecidableEq, Repr

def category_stat (db : DB) (user_id : Nat) (c : Category) (today : Int) : CategoryStat :=
  let tasks := db.tasks.filter (fun t => t.user_id == user_id && t.category_id == some c.id)
  let task_count := tasks.length
  let completed := (tasks.filter (fun t => t.status == StatusEnum.ready)).length
  let overdue := (tasks.filter (fun t => overdue_filter t today)).length
  { category := c, task_count := task_count, completed_count := completed,
    overdue_count := overdue,
    completion_rate :=
      if 0 < task_count then round2 ((completed : ℚ) / (task_count : ℚ) * 100) else 100 }

def get_category_stats (db : DB) (user_id : Nat) (today : Int) : List CategoryStat :=
  (db.categories.filter (fun c => c.user_id == user_id)).map
    (fun c => category_stat db user_id c today)

/-! ### Registration (app/api/v1/user.py register, app/services/auth.py
register_user, app/schemas/user.py UserCreate) -/

/-- Modelled from the spec: the external bcrypt password hasher, a one-way
salted hash (section 4.1).  Only its use as an opaque string transformer
matters to the verified claims. -/
def hash_password (password : String) : String :=
  String.append "bcrypt$" password

/-- Request body of POST /register as parsed into UserCreate.  The role field
is part of the schema and accepted from the client. -/
structure UserCreateData where
  username : String
  email : String
  role : RoleEnum
  password : String
  confirm_password : String
  deriving DecidableEq, Repr

/-- Modelled from the spec: pydantic EmailStr, an external format validator;
kept abstract as the presence of an @ sign, which is all the claims need. -/
def email_ok (e : String) : Bool := e.toList.contains '@'

/-- UserCreate validation: username length 3..64, EmailStr, password and
confirm_password of at least 8 characters, passwords_match validator. -/
def validate_user_create (d : UserCreateData) : Bool :=
  3 ≤ d.username.length && d.username.length ≤ 64 && email_ok d.email &&
    8 ≤ d.password.length && 8 ≤ d.confirm_password.length &&
    (d.password == "" || d.confirm_password == d.password)

/-- register_user (app/services/auth.py): its own duplicate check aborts with
400 (reachable only under concurrent inserts, since the route handler has
already checked); otherwise the user row is persisted with role forced to
RoleEnum.USER — the client-supplied role never reaches this function. -/
def register_user (db : DB) (username email password : String) (new_id : Nat)
    (now : Int) : Except Nat (DB × User) :=
  if (db.users.filter (fun u => u.username == username || u.email == email)) != []
  then Except.error 400
  else
    let user : User :=
      { id := new_id, username := username, email := email,
        password_hash := hash_password password, role := RoleEnum.user,
        last_login := none, created_at := now, updated_at := now }
    Except.ok ({ db with users := db.users ++ [user] }, user)

/-- Body of a JSON response: either the uniform error envelope
(status error + message) or a success payload. -/
inductive ApiBody
  | errorEnv (message : String)
  | successEnv
  deriving DecidableEq, Repr

/-- POST /register handler (app/api/v1/user.py register): 400 on missing or
invalid payload, 409 with the error envelope when the username or email is
already taken, otherwise the user is created and 201 returned. -/
def register (db : DB) (body : Option UserCreateData) (new_id : Nat) (now : Int) :
    (Nat × ApiBody) × DB :=
  match body with
  | none => ((400, ApiBody.errorEnv "Missing JSON payload"), db)
  | some d =>
    if !(validate_user_create d) then
      ((400, ApiBody.errorEnv "Invalid input"), db)
    else if (get_user_by_username db d.username).isSome ||
        (get_user_by_email db d.email).isSome then
      ((409, ApiBody.errorEnv "Username or email already exists"), db)
    else
      match register_user db d.username d.email d.password new_id now with
      | Except.error code => ((code, ApiBody.errorEnv "User already exists"), db)
      | Except.ok (db2, _user) => ((201, ApiBody.successEnv), db2)

/-! ### Tokens (app/services/auth.py, app/core/config.py)

create_access_token builds the payload from the source; the signing and
verification done inside the external jwt library are modelled from the spec
(section 4.2): a token is the signed payload, the signature check is equality
of the signing key, and expiry rejects once the exp instant has passed. -/

structure Settings where
  JWT_SECRET_KEY : String
  JWT_ACCESS_TOKEN_EXPIRES : Int
  deriving DecidableEq, Repr

structure JwtPayload where
  sub : String
  exp : Int
  iat : Int
  type : String
  deriving DecidableEq, Repr

structure JwtToken where
  payload : JwtPayload
  key : String
  deriving DecidableEq, Repr

inductive JwtError
  | invalidSignature
  | expiredSignature
  | malformed
  deriving DecidableEq, Repr

/-- create_access_token: when no expires_delta is supplied the default is
timedelta(hours=JWT_ACCESS_TOKEN_EXPIRES); sub is str(user_id), exp the
issue instant plus the delta (in seconds). -/
def create_access_token (settings : Settings) (user_id : Nat)
    (expires_delta : Option Int) (now : Int) : JwtToken :=
  let delta := match expires_delta with
    | some d => d
    | none => 3600 * settings.JWT_ACCESS_TOKEN_EXPIRES
  { payload := { sub := Nat.repr user_id, exp := now + delta, iat := now, type := "access" },
    key := settings.JWT_SECRET_KEY }

/-- Modelled from the spec: jwt.decode inside decode_token — the external jwt
library verifies the signature (InvalidToken on mismatch) and rejects the
token once its exp instant is reached (ExpiredToken). -/
def decode_token (settings : Settings) (token : JwtToken) (now : Int) :
    Except JwtError JwtPayload :=
  if token.key != settings.JWT_SECRET_KEY then Except.error JwtError.invalidSignature
  else if token.payload.exp ≤ now then Except.error JwtError.expiredSignature
  else Except.ok token.payload

/-- get_current_user_id_from_token: decode, then return the sub claim; any
decode failure or a falsy sub yields None. -/
def get_current_user_id_from_token (settings : Settings) (token : JwtToken)
    (now : Int) : Option String :=
  match decode_token settings token now with
  | Except.error _ => none
  | Except.ok p => if p.sub == "" then none else some p.sub

/-! ### Concrete fixtures used to evaluate the verified statements -/

def taskW1 : Task :=
  { id := 1, title := "Ship", description := none, status := StatusEnum.todo,
    priority := PriorityEnum.medium, due_date := some 0, user_id := 1,
    category_id := none, created_at := 3, updated_at := 3 }

def taskW2 : Task :=
  { id := 2, title := "Plan", description := some "roadmap", status := StatusEnum.inProgress,
    priority := PriorityEnum.high, due_date := none, user_id := 1,
    category_id := some 1, created_at := 1, updated_at := 1 }

def taskW3 : Task :=
  { id := 3, title := "Review", description := none, status := StatusEnum.ready,
    priority := PriorityEnum.low, due_date := some 9, user_id := 1,
    category_id := none, created_at := 2, updated_at := 2 }

def taskW4 : Task :=
  { id := 4, title := "Other", description := none, status := StatusEnum.todo,
    priority := PriorityEnum.medium, due_date := none, user_id := 2,
    category_id := none, created_at := 5, updated_at := 5 }

def tagW1 : Tag := { id := 7, name := "urgent", user_id := 100, created_at := 0, updated_at := 0 }

def tagW2 : Tag := { id := 8, name := "later", user_id := 1, created_at := 0, updated_at := 0 }

def catW : Category :=
  { id := 1, name := "Work", description := none, user_id := 1, created_at := 0, updated_at := 0 }

def userW : User :=
  { id := 1, username := "alice", email := "alice@x.com", password_hash := "h",
    role := RoleEnum.user, last_login := none, created_at := 0, updated_at := 0 }

def dbW : DB :=
  { users := [userW], categories := [catW], tags := [tagW1, tagW2],
    tasks := [taskW1, taskW2, taskW3, taskW4], task_tags := [] }

def qW : SearchQuery :=
  { title := none, status := none, priority := none, category_id := none,
    tag_ids := none, is_overdue := none, due_date_from := none, due_date_to := none,
    sort_by := "created_at", sort_order := "desc", page := 1, per_page := 20 }

def qBad : SearchQuery := { qW with sort_by := "user_id" }

def dupRegData : UserCreateData :=
  { username := "bob", email := "alice@x.com", role := RoleEnum.user,
    password := "password123", confirm_password := "password123" }

def adminRegData : UserCreateData :=
  { username := "eve", email := "eve@x.com", role := RoleEnum.admin,
    password := "password123", confirm_password := "password123" }

def settingsW : Settings := { JWT_SECRET_KEY := "k", JWT_ACCESS_TOKEN_EXPIRES := 12 }

def userEve : User :=
  { id := 1, username := "eve", email := "eve@x.com",
    password_hash := hash_password "password123", role := RoleEnum.user,
    last_login := none, created_at := 0, updated_at := 0 }

def tagUpdW : TagUpdate := { name := some "b" }

def taskUpdW : TaskUpdate :=
  { title := some "New", description := none, status := none, priority := none,
    due_date := none, category_id := none, tag_ids := none }

/-! ### Helper lemmas -/

theorem toDigitsCore_length_le (b : Nat) :
    ∀ (fuel n : Nat) (ds : List Char), ds.length ≤ (Nat.toDigitsCore b fuel n ds).length := by
  intro fuel
  induction fuel with
  | zero => intro n ds; exact Nat.le_refl _
  | succ f ih =>
    intro n ds
    simp only [Nat.toDigitsCore]
    split
    · simp
    · exact le_trans (by simp) (ih _ _)

theorem repr_ne_empty (n : Nat) : Nat.repr n ≠ "" := by
  have h1 : 1 ≤ (Nat.toDigits 10 n).length := by
    unfold Nat.toDigits
    simp only [Nat.toDigitsCore]
    split
    · simp
    · exact le_trans (by simp) (toDigitsCore_length_le 10 n (n / 10) _)
  intro hcon
  have h2 : (Nat.toDigits 10 n) = [] := by
    have h3 := congrArg String.data hcon
    simpa [Nat.repr, List.asString] using h3
  rw [h2] at h1
  simp at h1

theorem mem_of_mem_paginate {α : Type} (page per_page : Nat) (l : List α) (a : α)
    (h : a ∈ paginate page per_page l) : a ∈ l :=
  List.mem_of_mem_drop (List.mem_of_mem_take h)

theorem mem_of_mem_apply_sort {α : Type} (ha : String → Bool) (le : String → α → α → Bool)
    (sb so : String) (l : List α) (a : α) (h : a ∈ apply_sort ha le sb so l) : a ∈ l := by
  unfold apply_sort at h
  split at h
  · split at h
    · exact (mem_sortByLe _ _ _).mp h
    · exact (mem_sortByLe _ _ _).mp h
  · exact h

theorem mem_of_filter_title (o : Option String) (l : List Task) (t : Task)
    (h : t ∈ filter_title o l) : t ∈ l := by
  unfold filter_title at h
  split at h
  · split at h
    · exact h
    · exact List.mem_of_mem_filter h
  · exact h

theorem mem_of_filter_status (o : Option StatusEnum) (l : List Task) (t : Task)
    (h : t ∈ filter_status o l) : t ∈ l := by
  unfold filter_status at h
  split at h
  · exact List.mem_of_mem_filter h
  · exact h

theorem mem_of_filter_priority (o : Option PriorityEnum) (l : List Task) (t : Task)
    (h : t ∈ filter_priority o l) : t ∈ l := by
  unfold filter_priority at h
  split at h
  · exact List.mem_of_mem_filter h
  · exact h

theorem mem_of_filter_category (o : Option Nat) (l : List Task) (t : Task)
    (h : t ∈ filter_category o l) : t ∈ l := by
  unfold filter_category at h
  split at h
  · exact List.mem_of_mem_filter h
  · exact h

theorem mem_of_filter_tags (db : DB) (o : Option (List Nat)) (l : List Task) (t : Task)
    (h : t ∈ filter_tags db o l) : t ∈ l := by
  unfold filter_tags at h
  split at h
  · split at h
    · exact h
    · exact List.mem_of_mem_filter h
  · exact h

theorem mem_of_filter_overdue (o : Option Bool) (today : Int) (l : List Task) (t : Task)
    (h : t ∈ filter_overdue o today l) : t ∈ l := by
  unfold filter_overdue at h
  split at h
  · exact List.mem_of_mem_filter h
  · exact List.mem_of_mem_filter h
  · exact h

theorem mem_of_filter_due_from (o : Option Int) (l : List Task) (t : Task)
    (h : t ∈ filter_due_from o l) : t ∈ l := by
  unfold filter_due_from at h
  split at h
  · exact List.mem_of_mem_filter h
  · exact h

theorem mem_of_filter_due_to (o : Option Int) (l : List Task) (t : Task)
    (h : t ∈ filter_due_to o l) : t ∈ l := by
  unfold filter_due_to at h
  split at h
  · exact List.mem_of_mem_filter h
  · exact h

/-- Every row returned by search_tasks comes from the ownership-scoped base
query. -/
theorem search_tasks_mem_base (db : DB) (user_id : Nat) (q : SearchQuery) (today : Int)
    (t : Task) (h : t ∈ (search_tasks db user_id q today).1) :
    t ∈ db.tasks.filter (fun x => x.user_id == user_id) := by
  unfold search_tasks at h
  exact mem_of_filter_title _ _ _ (mem_of_filter_status _ _ _ (mem_of_filter_priority _ _ _
    (mem_of_filter_category _ _ _ (mem_of_filter_tags _ _ _ _ (mem_of_filter_overdue _ _ _ _
      (mem_of_filter_due_from _ _ _ (mem_of_filter_due_to _ _ _
        (mem_of_mem_apply_sort _ _ _ _ _ _ (mem_of_mem_paginate _ _ _ _ h)))))))))

/-- Reassembling the offset/limit pages in order reconstructs the full query
result: the chunk starting at i * P, taken P at a time, over
ceil(length / P) pages. -/
theorem join_chunks {α : Type} (P : Nat) (hP : 0 < P) :
    ∀ (n : Nat) (l : List α), l.length = n →
      ((List.range ((l.length + P - 1) / P)).map (fun i => (l.drop (i * P)).take P)).flatten = l := by
  intro n
  induction n using Nat.strong_induction_on with
  | _ n ih =>
    intro l hl
    cases l with
    | nil =>
      have h0 : (0 + P - 1) / P = 0 := Nat.div_eq_of_lt (by omega)
      simp [h0]
    | cons a t =>
      have hcount : ((a :: t).length + P - 1) / P = t.length / P + 1 := by
        have h1 : (a :: t).length + P - 1 = t.length + P := by
          simp only [List.length_cons]; omega
        rw [h1, Nat.add_div_right _ hP]
      have hdl : ((a :: t).drop P).length = t.length + 1 - P := by
        simp [List.length_drop]
      have hk : (((a :: t).drop P).length + P - 1) / P = t.length / P := by
        rw [hdl]
        by_cases hc : P ≤ t.length + 1
        · have h2 : t.length + 1 - P + P - 1 = t.length := by omega
          rw [h2]
        · have h2 : t.length + 1 - P = 0 := by omega
          have h3 : t.length / P = 0 := Nat.div_eq_of_lt (by omega)
          rw [h2, h3]
          exact Nat.div_eq_of_lt (by omega)
      have hn : n = t.length + 1 := by
        rw [← hl]; simp
      have hrec := ih ((a :: t).drop P).length
        (by rw [hdl]; omega) ((a :: t).drop P) rfl
      rw [hk] at hrec
      rw [hcount, List.range_succ_eq_map, List.map_cons, List.map_map, List.flatten_cons]
      have hmap : ((List.range (t.length / P)).map
            ((fun i => ((a :: t).drop (i * P)).take P) ∘ Nat.succ)) =
          (List.range (t.length / P)).map
            (fun i => (((a :: t).drop P).drop (i * P)).take P) := by
        apply List.map_congr_left
        intro i _
        simp only [Function.comp_apply, List.drop_drop]
        have h4 : Nat.succ i * P = P + i * P := by
          rw [Nat.succ_mul]; omega
        rw [h4]
      rw [hmap, hrec]
      simp [List.take_append_drop]

/-! ### Claim C4 -/

/-- C4: Overdue computation.  A task due yesterday is overdue at the entity
level regardless of status, and counted overdue by the query-level filter
exactly when its status is not Ready; a task due tomorrow is not overdue; a
task with no due date is never overdue; the entity-level Task.is_overdue
ignores status while the query-level overdue_filter is the entity-level check
strengthened by status not Ready. -/
theorem C4_overdue_computation (t : Task) (today : Int) :
    (t.due_date = some (today - 1) →
      Task.is_overdue t today = true ∧
        (overdue_filter t today = true ↔ t.status ≠ StatusEnum.ready))
  ∧ (t.due_date = some (today + 1) →
      Task.is_overdue t today = false ∧ overdue_filter t today = false)
  ∧ (t.due_date = none →
      Task.is_overdue t today = false ∧ overdue_filter t today = false)
  ∧ (∀ s, Task.is_overdue { t with status := s } today = Task.is_overdue t today)
  ∧ (overdue_filter t today = true ↔
      (Task.is_overdue t today = true ∧ t.status ≠ StatusEnum.ready)) := by
  have hiff : overdue_filter t today = true ↔
      (Task.is_overdue t today = true ∧ t.status ≠ StatusEnum.ready) := by
    unfold overdue_filter Task.is_overdue
    cases t.due_date with
    | none => simp
    | some d => by_cases hd : d < today <;> simp [hd]
  refine ⟨?_, ?_, ?_, ?_, hiff⟩
  · intro h
    have hov : Task.is_overdue t today = true := by
      simp [Task.is_overdue, h]
    refine ⟨hov, ?_⟩
    rw [hiff]
    simp [hov]
  · intro h
    have hov : Task.is_overdue t today = false := by
      simp [Task.is_overdue, h]
    refine ⟨hov, ?_⟩
    rw [Bool.eq_false_iff]
    intro hcon
    rw [hiff] at hcon
    rw [hov] at hcon
    simp at hcon
  · intro h
    have hov : Task.is_overdue t today = false := by
      simp [Task.is_overdue, h]
    refine ⟨hov, ?_⟩
    rw [Bool.eq_false_iff]
    intro hcon
    rw [hiff] at hcon
    rw [hov] at hcon
    simp at hcon
  · intro s
    unfold Task.is_overdue
    rfl

/-- C4 witness: a task due yesterday with status To Do evaluated at today = 1. -/
theorem C4_overdue_computation_witness :
    Task.is_overdue taskW1 1 = true ∧
      (overdue_filter taskW1 1 = true ↔ taskW1.status ≠ StatusEnum.ready) :=
  (C4_overdue_computation taskW1 1).1 (by decide)

/-! ### Claim C10 -/

/-- C10: a user with zero tasks gets completion_rate 100 from get_task_stats
(not 0 and no division error), and get_category_stats reports completion_rate
100 for every category containing zero tasks. -/
theorem C10_zero_tasks_completion_rate (db : DB) (user_id : Nat) (today : Int) :
    (db.tasks.filter (fun t => t.user_id == user_id) = [] →
      (get_task_stats db user_id today).completion_rate = 100)
  ∧ (∀ s ∈ get_category_stats db user_id today, s.task_count = 0 →
      s.completion_rate = 100) := by
  constructor
  · intro h
    simp [get_task_stats, h]
  · intro s hs h0
    unfold get_category_stats at hs
    obtain ⟨c, _, rfl⟩ := List.mem_map.mp hs
    unfold category_stat at h0 ⊢
    simp only at h0 ⊢
    rw [if_neg]
    omega

/-- C10 witness: the empty store for user 1. -/
theorem C10_zero_tasks_completion_rate_witness :
    (get_task_stats emptyDB 1 0).completion_rate = 100 :=
  (C10_zero_tasks_completion_rate emptyDB 1 0).1 rfl

/-! ### Claim C1 -/

theorem user_eq_of_mem_owner_filter {db : DB} {A B : Nat} (hAB : A ≠ B) (t : Task)
    (h : t ∈ db.tasks.filter (fun x => x.user_id == B)) :
    t.user_id = B ∧ t.user_id ≠ A := by
  have hB : t.user_id = B := by
    have h2 := (List.mem_filter.mp h).2
    simpa using h2
  exact ⟨hB, by rw [hB]; exact fun hcon => hAB hcon.symm⟩

/-- C1: ownership isolation.  Every entity returned by a get_by_id, list or
search operation performed as user B has user_id = B; since rows created with
owner A carry user_id = A (the last three conjuncts), an entity created by a
different user A is never returned to B. -/
theorem C1_ownership_isolation (db : DB) (A B : Nat) (hAB : A ≠ B)
    (task_id tag_id category_id page per_page : Nat)
    (sort_by sort_order : String) (q : SearchQuery) (today : Int) :
    (∀ t, get_task_by_id db task_id B = some t → t.user_id = B ∧ t.user_id ≠ A)
  ∧ (∀ g, get_tag_by_id db tag_id B = some g → g.user_id = B ∧ g.user_id ≠ A)
  ∧ (∀ c, get_category_by_id db category_id B = some c → c.user_id = B ∧ c.user_id ≠ A)
  ∧ (∀ t ∈ (list_tasks db B page per_page).1, t.user_id = B ∧ t.user_id ≠ A)
  ∧ (∀ g ∈ (list_tags db B sort_by sort_order page per_page).1, g.user_id = B ∧ g.user_id ≠ A)
  ∧ (∀ c ∈ (list_categories db B sort_by sort_order page per_page).1, c.user_id = B ∧ c.user_id ≠ A)
  ∧ (∀ t ∈ (search_tasks db B q today).1, t.user_id = B ∧ t.user_id ≠ A)
  ∧ (∀ title desc st pr due cat tg now db2,
      create_task db task_id A title desc st pr due cat tg now = Except.ok db2 →
        ∀ t ∈ db2.tasks, t ∈ db.tasks ∨ t.user_id = A)
  ∧ (∀ name now, ∀ g ∈ (create_tag db tag_id A name now).tags,
      g ∈ db.tags ∨ g.user_id = A)
  ∧ (∀ name desc now, ∀ c ∈ (create_category db category_id A name desc now).categories,
      c ∈ db.categories ∨ c.user_id = A) := by
  refine ⟨?_, ?_, ?_, ?_, ?_, ?_, ?_, ?_, ?_, ?_⟩
  · intro t h
    have hm := List.mem_of_mem_head? h
    have h2 := (List.mem_filter.mp hm).2
    have hB : t.user_id = B := by
      simp only [Bool.and_eq_true, beq_iff_eq] at h2
      exact h2.2
    exact ⟨hB, by rw [hB]; exact fun hcon => hAB hcon.symm⟩
  · intro g h
    have hm := List.mem_of_mem_head? h
    have h2 := (List.mem_filter.mp hm).2
    have hB : g.user_id = B := by
      simp only [Bool.and_eq_true, beq_iff_eq] at h2
      exact h2.2
    exact ⟨hB, by rw [hB]; exact fun hcon => hAB hcon.symm⟩
  · intro c h
    have hm := List.mem_of_mem_head? h
    have h2 := (List.mem_filter.mp hm).2
    have hB : c.user_id = B := by
      simp only [Bool.and_eq_true, beq_iff_eq] at h2
      exact h2.2
    exact ⟨hB, by rw [hB]; exact fun hcon => hAB hcon.symm⟩
  · intro t h
    have hm := (mem_sortByLe _ _ _).mp (mem_of_mem_paginate _ _ _ _ h)
    exact user_eq_of_mem_owner_filter hAB t hm
  · intro g h
    have hm := mem_of_mem_apply_sort _ _ _ _ _ _ (mem_of_mem_paginate _ _ _ _ h)
    have hB : g.user_id = B := by
      have h2 := (List.mem_filter.mp hm).2
      simpa using h2
    exact ⟨hB, by rw [hB]; exact fun hcon => hAB hcon.symm⟩
  · intro c h
    have hm := mem_of_mem_apply_sort _ _ _ _ _ _ (mem_of_mem_paginate _ _ _ _ h)
    have hB : c.user_id = B := by
      have h2 := (List.mem_filter.mp hm).2
      simpa using h2
    exact ⟨hB, by rw [hB]; exact fun hcon => hAB hcon.symm⟩
  · intro t h
    exact user_eq_of_mem_owner_filter hAB t (search_tasks_mem_base _ _ _ _ _ h)
  · intro title desc st pr due cat tg now db2 hok t h
    simp only [create_task] at hok
    split at hok
    · exact absurd hok (by simp)
    · simp only [Except.ok.injEq] at hok
      rw [← hok] at h
      simp only at h
      rcases List.mem_append.mp h with h1 | h1
      · exact Or.inl h1
      · right
        rw [List.mem_singleton.mp h1]
  · intro name now g h
    unfold create_tag at h
    simp only at h
    rcases List.mem_append.mp h with h1 | h1
    · exact Or.inl h1
    · right
      rw [List.mem_singleton.mp h1]
  · intro name desc now c h
    unfold create_category at h
    simp only at h
    rcases List.mem_append.mp h with h1 | h1
    · exact Or.inl h1
    · right
      rw [List.mem_singleton.mp h1]

/-- C1 witness: in the concrete store, everything listed for user 2 belongs
to user 2 and not to user 1, checked through the theorem. -/
theorem C1_ownership_isolation_witness :
    (1 : Nat) ≠ 2 ∧
      taskW4.user_id = 2 ∧ taskW4.user_id ≠ 1 :=
  ⟨by decide,
    (C1_ownership_isolation dbW 1 2 (by decide) 0 0 0 1 20 "name" "asc" qW 0).2.2.2.1
      taskW4 (by decide)⟩

/-! ### Claim C6 -/

/-- C6: pagination.  Concatenating the pages returned by list_tasks for pages
1, 2, ... up to the handler-reported page count reconstructs the full query
result exactly (no duplicates, no gaps); the query result is a permutation of
the owner's rows, the reported total is its length for every page, and the
handler page count (total + P - 1) / P is ceiling division. -/
theorem C6_pagination (db : DB) (user_id P : Nat) (hP : 0 < P) (query : List Task)
    (hq : query = sortByLe (fun a b => decide (b.created_at ≤ a.created_at))
      (db.tasks.filter (fun t => t.user_id == user_id))) :
    (((List.range (pages_for query.length P)).map
        (fun i => (list_tasks db user_id (i + 1) P).1)).flatten = query)
  ∧ query.Perm (db.tasks.filter (fun t => t.user_id == user_id))
  ∧ (∀ page, (list_tasks db user_id page P).2 = query.length)
  ∧ pages_for query.length P = query.length ⌈/⌉ P := by
  subst hq
  refine ⟨?_, sortByLe_perm _ _, fun page => rfl, rfl⟩
  have hmap : (List.range (pages_for (sortByLe (fun a b => decide (b.created_at ≤ a.created_at))
          (db.tasks.filter (fun t => t.user_id == user_id))).length P)).map
        (fun i => (list_tasks db user_id (i + 1) P).1) =
      (List.range (((sortByLe (fun a b => decide (b.created_at ≤ a.created_at))
          (db.tasks.filter (fun t => t.user_id == user_id))).length + P - 1) / P)).map
        (fun i => ((sortByLe (fun a b => decide (b.created_at ≤ a.created_at))
          (db.tasks.filter (fun t => t.user_id == user_id))).drop (i * P)).take P) := by
    apply List.map_congr_left
    intro i _
    simp [list_tasks, paginate]
  rw [hmap]
  exact join_chunks P hP _ _ rfl

/-- C6 witness: user 1 owns three tasks and the page size is 2; the reported
total is 3 on every page, via the theorem. -/
theorem C6_pagination_witness :
    0 < 2 ∧ (list_tasks dbW 1 1 2).2 = 3 := by
  refine ⟨by decide, ?_⟩
  have h := (C6_pagination dbW 1 2 (by decide) _ rfl).2.2.1 1
  rw [h]
  decide

/-! ### Claim C2 -/

/-- C2: token lifecycle.  A token issued for a user with ttl T verifies to
that user id (str(user_id) in the sub claim) at any instant strictly before
issue + T, and is rejected as expired at any instant strictly after. -/
theorem C2_token_lifecycle (settings : Settings) (user_id : Nat) (T issue t : Int)
    (_hT : 0 < T) :
    (t < issue + T →
      get_current_user_id_from_token settings
          (create_access_token settings user_id (some T) issue) t
        = some (Nat.repr user_id))
  ∧ (issue + T < t →
      decode_token settings (create_access_token settings user_id (some T) issue) t
        = Except.error JwtError.expiredSignature) := by
  constructor
  · intro h
    unfold get_current_user_id_from_token decode_token create_access_token
    have h1 : ¬ (issue + T ≤ t) := by omega
    have h2 : (Nat.repr user_id == "") = false :=
      beq_eq_false_iff_ne.mpr (repr_ne_empty user_id)
    simp [h1, h2]
  · intro h
    unfold decode_token create_access_token
    have h1 : issue + T ≤ t := by omega
    simp [h1]

/-- C2 witness: ttl 10 issued at 0, accepted at instant 3 as user 5. -/
theorem C2_token_lifecycle_witness :
    (0 : Int) < 10 ∧
      get_current_user_id_from_token settingsW
          (create_access_token settingsW 5 (some 10) 0) 3
        = some (Nat.repr 5) :=
  ⟨by decide, (C2_token_lifecycle settingsW 5 10 0 3 (by decide)).1 (by decide)⟩

/-! ### Claim C3 -/

/-- C3: duplicate registration.  When a user already exists with the request's
email or username, a register request that passes schema validation returns
409 with the error envelope and leaves the store unchanged: no user is
created. -/
theorem C3_duplicate_registration (db : DB) (d : UserCreateData) (new_id : Nat)
    (now : Int) (hval : validate_user_create d = true)
    (hdup : (∃ u ∈ db.users, u.email = d.email) ∨ (∃ u ∈ db.users, u.username = d.username)) :
    register db (some d) new_id now =
      ((409, ApiBody.errorEnv "Username or email already exists"), db) := by
  have hsome : ((get_user_by_username db d.username).isSome ||
      (get_user_by_email db d.email).isSome) = true := by
    rcases hdup with ⟨u, hu, he⟩ | ⟨u, hu, hn⟩
    · have hb : (get_user_by_email db d.email).isSome = true := by
        apply List.head?_isSome.mpr
        apply List.ne_nil_of_mem (a := u)
        exact List.mem_filter.mpr ⟨hu, by simp [he]⟩
      simp [hb]
    · have hb : (get_user_by_username db d.username).isSome = true := by
        apply List.head?_isSome.mpr
        apply List.ne_nil_of_mem (a := u)
        exact List.mem_filter.mpr ⟨hu, by simp [hn]⟩
      simp [hb]
  unfold register
  simp [hval, hsome]

/-- C3 witness: alice is registered; bob registers with alice's email. -/
theorem C3_duplicate_registration_witness :
    validate_user_create dupRegData = true ∧
      register dbW (some dupRegData) 2 5 =
        ((409, ApiBody.errorEnv "Username or email already exists"), dbW) :=
  ⟨by decide,
    C3_duplicate_registration dbW dupRegData 2 5 (by decide)
      (Or.inl ⟨userW, by simp [dbW], rfl⟩)⟩

/-! ### Claim C9 -/

theorem register_user_ok (db : DB) (username email password : String) (new_id : Nat)
    (now : Int) (db2 : DB) (u : User)
    (h : register_user db username email password new_id now = Except.ok (db2, u)) :
    u.role = RoleEnum.user ∧ ∀ v ∈ db2.users, v ∈ db.users ∨ v.role = RoleEnum.user := by
  unfold register_user at h
  split at h
  · exact absurd h (by simp)
  · simp only [Except.ok.injEq, Prod.mk.injEq] at h
    obtain ⟨hdb2, hu⟩ := h
    constructor
    · rw [← hu]
    · intro v hv
      rw [← hdb2] at hv
      simp only at hv
      rcases List.mem_append.mp hv with h1 | h1
      · exact Or.inl h1
      · right
        rw [List.mem_singleton.mp h1]

/-- C9: registration role invariant.  Every user added by register_user has
role user, and no request body accepted by the public register endpoint —
including one that supplies role admin — can add a user whose role is not
user. -/
theorem C9_registration_role (db : DB) (d : UserCreateData) (new_id : Nat) (now : Int) :
    (∀ db2 u, register_user db d.username d.email d.password new_id now
        = Except.ok (db2, u) →
      u.role = RoleEnum.user ∧ ∀ v ∈ db2.users, v ∈ db.users ∨ v.role = RoleEnum.user)
  ∧ (∀ v ∈ ((register db (some d) new_id now).2).users,
      v ∈ db.users ∨ v.role = RoleEnum.user) := by
  constructor
  · intro db2 u h
    exact register_user_ok db d.username d.email d.password new_id now db2 u h
  · intro v hv
    unfold register at hv
    simp only at hv
    split at hv
    · exact Or.inl hv
    · split at hv
      · exact Or.inl hv
      · split at hv
        · exact Or.inl hv
        · rename_i heq
          exact (register_user_ok db d.username d.email d.password new_id now _ _ heq).2 v hv

/-- C9 witness: a register request that explicitly asks for role admin still
creates a role-user account. -/
theorem C9_registration_role_witness :
    userEve ∈ ((register emptyDB (some adminRegData) 1 0).2).users ∧
      (userEve ∈ emptyDB.users ∨ userEve.role = RoleEnum.user) :=
  ⟨by decide, (C9_registration_role emptyDB adminRegData 1 0).2 userEve (by decide)⟩

/-! ### Claim C7 -/

/-- C7: search sort-field validation.  A sort_by outside the allow-list makes
the search endpoint fail validation with a 400 response carrying no results,
while any sort_by inside the allow-list passes the sort-field validator. -/
theorem C7_search_sort_validation (db : DB) (user_id : Nat) (q : SearchQuery)
    (today : Int) :
    (q.sort_by ∉ valid_sort_fields →
      search_user_tasks db user_id q today = (400, none))
  ∧ (q.sort_by ∈ valid_sort_fields →
      validate_sort_by q.sort_by = Except.ok q.sort_by) := by
  constructor
  · intro h
    have hv : validate_sort_by q.sort_by =
        Except.error "sort_by must be one of: created_at, updated_at, due_date, priority, status, title" := by
      unfold validate_sort_by
      rw [if_neg]
      intro hc
      exact h (List.elem_iff.mp hc)
    unfold search_user_tasks validate_task_search_params
    rcases hdr : validate_due_date_range q.due_date_from q.due_date_to with e | v
    · simp [hdr, Bind.bind, Except.bind]
    · simp [hdr, hv, Bind.bind, Except.bind]
  · intro h
    unfold validate_sort_by
    rw [if_pos (List.elem_iff.mpr h)]

/-- C7 witness: sort_by user_id is outside the allow-list and yields a 400
response with no results. -/
theorem C7_search_sort_validation_witness :
    "user_id" ∉ valid_sort_fields ∧
      search_user_tasks emptyDB 1 qBad 0 = (400, none) :=
  ⟨by decide, (C7_search_sort_validation emptyDB 1 qBad 0).1 (by decide)⟩

/-! ### Claim C5 -/

/-- C5 counterexample: updating only the tag's name also changes the
updated_at column (the onupdate timestamp hook), so a field absent from the
partial map does not retain its prior value. -/
theorem C5_counterexample :
    (apply_tag_update tagW2 tagUpdW 5).name = "b" ∧
      (apply_tag_update tagW2 tagUpdW 5).updated_at ≠ tagW2.updated_at := by
  decide

theorem apply_task_update_fields (t : Task) (d : TaskUpdate) (now : Int) :
    (apply_task_update t d now).id = t.id
  ∧ (apply_task_update t d now).user_id = t.user_id
  ∧ (apply_task_update t d now).created_at = t.created_at
  ∧ (apply_task_update t d now).title = d.title.getD t.title
  ∧ (apply_task_update t d now).description
      = (match d.description with | some v => some v | none => t.description)
  ∧ (apply_task_update t d now).status = d.status.getD t.status
  ∧ (apply_task_update t d now).priority = d.priority.getD t.priority
  ∧ (apply_task_update t d now).due_date
      = (match d.due_date with | some v => some v | none => t.due_date)
  ∧ (apply_task_update t d now).category_id
      = (match d.category_id with | some v => some v | none => t.category_id) := by
  unfold apply_task_update
  by_cases hd : task_update_dirty d = true <;> simp [hd]

/-- C5 (amended): a partial update writes exactly the fields present and
non-null in the map and refreshes the auto-maintained updated_at timestamp;
every other field — id, owner, created_at, and every absent or null field —
retains its prior value, and when tag_ids is absent the association table is
untouched. -/
theorem C5_partial_update_frame (db : DB) (t : Task) (d : TaskUpdate) (g : Tag)
    (e : TagUpdate) (now : Int) :
    ((apply_task_update t d now).id = t.id)
  ∧ ((apply_task_update t d now).user_id = t.user_id)
  ∧ ((apply_task_update t d now).created_at = t.created_at)
  ∧ (d.title = none → (apply_task_update t d now).title = t.title)
  ∧ (∀ v, d.title = some v → (apply_task_update t d now).title = v)
  ∧ (d.description = none → (apply_task_update t d now).description = t.description)
  ∧ (∀ v, d.description = some v → (apply_task_update t d now).description = some v)
  ∧ (d.status = none → (apply_task_update t d now).status = t.status)
  ∧ (∀ v, d.status = some v → (apply_task_update t d now).status = v)
  ∧ (d.priority = none → (apply_task_update t d now).priority = t.priority)
  ∧ (∀ v, d.priority = some v → (apply_task_update t d now).priority = v)
  ∧ (d.due_date = none → (apply_task_update t d now).due_date = t.due_date)
  ∧ (∀ v, d.due_date = some v → (apply_task_update t d now).due_date = some v)
  ∧ (d.category_id = none → (apply_task_update t d now).category_id = t.category_id)
  ∧ (∀ v, d.category_id = some v → (apply_task_update t d now).category_id = some v)
  ∧ (task_update_dirty d = false → (apply_task_update t d now).updated_at = t.updated_at)
  ∧ (d.tag_ids = none → ∃ db2, update_task db t d now = Except.ok db2 ∧
      db2.task_tags = db.task_tags)
  ∧ ((apply_tag_update g e now).id = g.id)
  ∧ ((apply_tag_update g e now).user_id = g.user_id)
  ∧ ((apply_tag_update g e now).created_at = g.created_at)
  ∧ (e.name = none → apply_tag_update g e now = g)
  ∧ (∀ v, e.name = some v → (apply_tag_update g e now).name = v) := by
  have hf := apply_task_update_fields t d now
  obtain ⟨h1, h2, h3, h4, h5, h6, h7, h8, h9⟩ := hf
  refine ⟨h1, h2, h3, ?_, ?_, ?_, ?_, ?_, ?_, ?_, ?_, ?_, ?_, ?_, ?_, ?_, ?_, ?_, ?_, ?_, ?_, ?_⟩
  · intro h
    rw [h4, h]
    rfl
  · intro v h
    rw [h4, h]
    rfl
  · intro h
    rw [h5, h]
  · intro v h
    rw [h5, h]
  · intro h
    rw [h6, h]
    rfl
  · intro v h
    rw [h6, h]
    rfl
  · intro h
    rw [h7, h]
    rfl
  · intro v h
    rw [h7, h]
    rfl
  · intro h
    rw [h8, h]
  · intro v h
    rw [h8, h]
  · intro h
    rw [h9, h]
  · intro v h
    rw [h9, h]
  · intro h
    unfold apply_task_update
    simp [h]
  · intro h
    unfold update_task
    rw [h]
    exact ⟨_, rfl, rfl⟩
  · unfold apply_tag_update
    by_cases hn : e.name.isSome = true <;> simp [hn]
  · unfold apply_tag_update
    by_cases hn : e.name.isSome = true <;> simp [hn]
  · unfold apply_tag_update
    by_cases hn : e.name.isSome = true <;> simp [hn]
  · intro h
    unfold apply_tag_update
    simp [h]
  · intro v h
    unfold apply_tag_update
    simp [h]

/-- C5 witness: writing only the title leaves description, status, owner and
created_at untouched. -/
theorem C5_partial_update_frame_witness :
    (apply_task_update taskW1 taskUpdW 9).title = "New" ∧
      (apply_task_update taskW1 taskUpdW 9).description = taskW1.description ∧
      (apply_task_update taskW1 taskUpdW 9).user_id = taskW1.user_id := by
  have h := C5_partial_update_frame emptyDB taskW1 taskUpdW tagW2 tagUpdW 9
  exact ⟨h.2.2.2.2.1 "New" rfl, h.2.2.2.2.2.1 rfl, h.2.1⟩

/-! ### Claim C8 -/

end TasksService
